import Mathlib

/-!
Shallow embedding of the `MCPBridge` class from `src/bot/discord-bot.js` of
the discord-ex-platform repository, together with theorems settling the
claims about its connection management, message routing and statistics.

Modelling conventions:
* A JS `Map` is an association list in insertion order; `Map.get` is
  `mapGet`, `Map.set` is `mapSet` (replace in place if the key exists,
  append otherwise), `Map.clear` is `[]`.
* `new Date()` timestamps are natural numbers supplied as a `now` argument
  to every operation that reads the clock.
* `Math.random()` outcomes in `updateStats` are supplied as explicit
  arguments: `active` models `Math.random() > 0.7` and `amount % 3` models
  `Math.floor(Math.random() * 3)`.
* JSON values produced by `simulateResponse` are modelled by the inductive
  `JValue`; thrown `Error`s become the `BridgeError` type carried in
  `Except`.
* Event-handler callbacks (`handleMessage` for an inbound WebSocket frame,
  `handleDisconnect` for a close/error event) are modelled as explicit
  state transformers, invoked when the corresponding event fires.
-/

namespace DiscordEx

/-- A tool entry declared by an MCP server (`name` + `description` pair),
as in `setupDefaultServers`. -/
structure Tool where
  name : String
  description : String
deriving DecidableEq, Repr

/-- A registered MCP server record as stored in `this.servers`:
display name, URL, status mode (`"simulated"` for the demo servers),
capability list and declared tool list. -/
structure Server where
  name : String
  url : String
  status : String
  capabilities : List String
  tools : List Tool
deriving DecidableEq, Repr

/-- A connection record as stored in `this.connections` by
`connectToServer`. `hasWs` models the presence of the `ws` field, which the
simulated path never sets. -/
structure Connection where
  id : String
  server : Server
  status : String
  lastPing : Nat
  messageCount : Nat
  hasWs : Bool
deriving DecidableEq, Repr

/-- The `this.stats` aggregate. `activeConnections` is an `Int` because
`handleDisconnect` decrements it unconditionally whenever a connection
record exists, so in JS it can in principle go below zero. -/
structure Stats where
  totalConnections : Nat
  activeConnections : Int
  messagesProcessed : Nat
  lastActivity : Nat
deriving DecidableEq, Repr

/-- JS `Map.get`: the value at the first (only) entry with the given key. -/
def mapGet {α : Type} : List (String × α) → String → Option α
  | [], _ => none
  | p :: rest, k => if p.1 == k then some p.2 else mapGet rest k

/-- JS `Map.set`: replace the entry in place if the key exists, append
otherwise. -/
def mapSet {α : Type} : List (String × α) → String → α → List (String × α)
  | [], k, v => [(k, v)]
  | p :: rest, k, v => if p.1 == k then (k, v) :: rest else p :: mapSet rest k v

/-- The `demo-server` entry of `setupDefaultServers`. -/
def demoServer : Server :=
  { name := "Demo Server"
    url := "ws://localhost:3001/mcp"
    status := "simulated"
    capabilities := ["tools", "resources", "prompts"]
    tools := [⟨"calculate", "Perform calculations"⟩,
              ⟨"weather", "Get weather information"⟩,
              ⟨"translate", "Translate text"⟩] }

/-- The `ai-assistant` entry of `setupDefaultServers`. -/
def aiAssistant : Server :=
  { name := "AI Assistant"
    url := "ws://localhost:3002/mcp"
    status := "simulated"
    capabilities := ["prompts", "completion"]
    tools := [⟨"chat", "AI chat interface"⟩,
              ⟨"analyze", "Text analysis"⟩] }

/-- The `file-manager` entry of `setupDefaultServers`. -/
def fileManager : Server :=
  { name := "File Manager"
    url := "ws://localhost:3003/mcp"
    status := "simulated"
    capabilities := ["resources", "file-operations"]
    tools := [⟨"read-file", "Read file contents"⟩,
              ⟨"write-file", "Write file contents"⟩,
              ⟨"list-files", "List directory contents"⟩] }

/-- The mutable state of an `MCPBridge` instance. -/
structure MCPBridge where
  connections : List (String × Connection)
  servers : List (String × Server)
  isInit : Bool
  stats : Stats
deriving DecidableEq, Repr

/-- The `MCPBridge` constructor (including `setupDefaultServers`), with
`now` standing for the construction-time `new Date()`. -/
def MCPBridge.new (now : Nat) : MCPBridge :=
  { connections := []
    servers := [("demo-server", demoServer),
                ("ai-assistant", aiAssistant),
                ("file-manager", fileManager)]
    isInit := false
    stats := { totalConnections := 0
               activeConnections := 0
               messagesProcessed := 0
               lastActivity := now } }

/-- The `params` object of an outbound MCP message; `simulateResponse`
only ever reads `params?.name`. -/
structure MCPParams where
  name : Option String
deriving DecidableEq, Repr

/-- An outbound MCP message: `method` plus optional `params`. -/
structure MCPMessage where
  method : String
  params : Option MCPParams
deriving DecidableEq, Repr

/-- JSON values, for the fabricated responses of `simulateResponse`. -/
inductive JValue where
  | str : String → JValue
  | obj : List (String × JValue) → JValue
  | arr : List JValue → JValue

/-- The errors thrown by `sendMessage`:
`unknownEndpoint` is `Error("No connection to server: <id>")`,
`notConnected` is `Error("Server <id> is not connected")`. -/
inductive BridgeError where
  | unknownEndpoint : String → BridgeError
  | notConnected : String → BridgeError
deriving DecidableEq, Repr

/-- The possible successful return values of `sendMessage`: a fabricated
JSON response (simulated path), `{status: "sent", timestamp}` (live path
with a `ws` handle), or JS `undefined` (live path without one). -/
inductive SendResult where
  | response : JValue → SendResult
  | sent : Nat → SendResult
  | noTransport : SendResult

/-- `message.params?.name || 'unknown'`: JS `||` also rejects the empty
string as falsy. -/
def paramsNameOrUnknown (m : MCPMessage) : String :=
  match m.params with
  | some p =>
    match p.name with
    | some n => if n = "" then "unknown" else n
    | none => "unknown"
  | none => "unknown"

/-- `MCPBridge.simulateResponse`: the fixed dispatch table keyed on
`message.method`, with the generic demo placeholder as default. -/
def simulateResponse (message : MCPMessage) : JValue :=
  if message.method = "tools/list" then
    .obj [("result", .obj [("tools", .arr
      [.obj [("name", .str "calculate"),
             ("description", .str "Perform mathematical calculations")],
       .obj [("name", .str "weather"),
             ("description", .str "Get current weather information")],
       .obj [("name", .str "translate"),
             ("description", .str "Translate text between languages")]])])]
  else if message.method = "tools/call" then
    .obj [("result", .obj [("content", .arr
      [.obj [("type", .str "text"),
             ("text", .str ("Tool executed successfully: "
                             ++ paramsNameOrUnknown message))]])])]
  else if message.method = "resources/list" then
    .obj [("result", .obj [("resources", .arr
      [.obj [("uri", .str "file://demo.txt"),
             ("name", .str "Demo File"),
             ("mimeType", .str "text/plain")],
       .obj [("uri", .str "http://example.com"),
             ("name", .str "Example Website"),
             ("mimeType", .str "text/html")]])])]
  else
    .obj [("result", .obj [("message", .str "Demo response"),
                           ("status", .str "success")])]

/-- `MCPBridge.sendMessage(serverId, message)`: look the connection up,
throw for a missing or non-connected one, answer from `simulateResponse`
for a simulated server, otherwise send on the WebSocket. The second
component is the bridge state after the call, which every branch of the
source leaves untouched. -/
def MCPBridge.sendMessage (s : MCPBridge) (serverId : String)
    (message : MCPMessage) (now : Nat) :
    Except BridgeError SendResult × MCPBridge :=
  match mapGet s.connections serverId with
  | none => (.error (.unknownEndpoint serverId), s)
  | some connection =>
    if connection.status ≠ "connected" then
      (.error (.notConnected serverId), s)
    else if connection.server.status = "simulated" then
      (.ok (.response (simulateResponse message)), s)
    else if connection.hasWs then
      (.ok (.sent now), s)
    else
      (.ok .noTransport, s)

/-- `MCPBridge.handleMessage(serverId, data)`, the inbound-frame handler:
`parsed` is `some` the parsed message, or `none` when `JSON.parse` threw
(in which case the error is logged and nothing changes). When a connection
record exists, its counter and `lastPing` are bumped along with the global
stats; the `message` event is emitted either way. -/
def MCPBridge.handleMessage (s : MCPBridge) (serverId : String)
    (parsed : Option MCPMessage) (now : Nat) : MCPBridge :=
  match parsed with
  | none => s
  | some _ =>
    match mapGet s.connections serverId with
    | none => s
    | some connection =>
      { s with
        connections := mapSet s.connections serverId
          { connection with messageCount := connection.messageCount + 1
                            lastPing := now }
        stats := { s.stats with
                   messagesProcessed := s.stats.messagesProcessed + 1
                   lastActivity := now } }

/-- `MCPBridge.handleDisconnect(serverId)`: mark the connection
`disconnected` and decrement `activeConnections`, whenever a record
exists. -/
def MCPBridge.handleDisconnect (s : MCPBridge) (serverId : String) :
    MCPBridge :=
  match mapGet s.connections serverId with
  | none => s
  | some connection =>
    { s with
      connections := mapSet s.connections serverId
        { connection with status := "disconnected" }
      stats := { s.stats with
                 activeConnections := s.stats.activeConnections - 1 } }

/-- `MCPBridge.connectToServer(id, server)`: the simulated path installs a
fresh `connected` record (message counter 0, `lastPing` now, no `ws`
field). The live path only constructs a WebSocket and registers handlers;
the connection map is mutated later by the asynchronous `open` event
(modelled by `wsOpen`), so synchronously the state is unchanged. -/
def MCPBridge.connectToServer (s : MCPBridge) (id : String)
    (server : Server) (now : Nat) : MCPBridge :=
  if server.status = "simulated" then
    { s with connections :=
        (mapSet s.connections id ⟨id, server, "connected", now, 0, false⟩) }
  else
    s

/-- The `ws.on('open')` callback of the live path of `connectToServer`:
installs a fresh `connected` record that does carry the `ws` handle. -/
def MCPBridge.wsOpen (s : MCPBridge) (id : String) (server : Server)
    (now : Nat) : MCPBridge :=
  { s with connections :=
      (mapSet s.connections id ⟨id, server, "connected", now, 0, true⟩) }

/-- `MCPBridge.initialize()` (named `initBridge` here): for every
registered server, `connectToServer` and then increment
`totalConnections` and `activeConnections` (the `catch` arm is
unreachable for simulated servers, and the live path's synchronous part
does not throw either), then set the initialized flag. The periodic tasks
it starts are modelled by explicit invocations of `updateStats` and
`pingServers`. -/
def MCPBridge.initBridge (s : MCPBridge) (now : Nat) : MCPBridge :=
  let s' := s.servers.foldl
    (fun acc p =>
      let acc' := acc.connectToServer p.1 p.2 now
      { acc' with stats := { acc'.stats with
          totalConnections := acc'.stats.totalConnections + 1
          activeConnections := acc'.stats.activeConnections + 1 } })
    s
  { s' with isInit := true }

/-- One firing of the 10-second `updateStats` timer. `active` models
`Math.random() > 0.7`; `amount % 3` models
`Math.floor(Math.random() * 3)`. -/
def MCPBridge.updateStats (s : MCPBridge) (active : Bool) (amount : Nat)
    (now : Nat) : MCPBridge :=
  if active then
    { s with stats := { s.stats with
        messagesProcessed := s.stats.messagesProcessed + amount % 3
        lastActivity := now } }
  else
    s

/-- The read-only projection returned for one connection by
`getConnections`. -/
structure ConnectionView where
  id : String
  name : String
  status : String
  capabilities : List String
  messageCount : Nat
  lastPing : Nat
deriving DecidableEq, Repr

/-- `MCPBridge.getConnections()`. -/
def MCPBridge.getConnections (s : MCPBridge) : List ConnectionView :=
  s.connections.map (fun p =>
    { id := p.2.id
      name := p.2.server.name
      status := p.2.status
      capabilities := p.2.server.capabilities
      messageCount := p.2.messageCount
      lastPing := p.2.lastPing })

/-- `MCPBridge.getStats()`. -/
def MCPBridge.getStats (s : MCPBridge) : Stats := s.stats

/-- `MCPBridge.close()`: `ws.close()` on live connected entries is an
external effect; on the bridge state the whole method amounts to
`this.connections.clear()` — the stats are never touched. -/
def MCPBridge.close (s : MCPBridge) : MCPBridge :=
  { s with connections := [] }

/-- Number of connection records currently in `connected` state
(as an `Int`, for comparison with `stats.activeConnections`). -/
def connectedCount (s : MCPBridge) : Int :=
  ((s.connections.filter (fun p => p.2.status == "connected")).length : Int)

/-- Sum of the per-connection message counters. -/
def sumMessageCounts (s : MCPBridge) : Nat :=
  (s.connections.map (fun p => p.2.messageCount)).sum

/-- The bridge as produced by constructing it at time `t` and running
`initialize` at time `u`: the three simulated demo servers connected. -/
def demoBridgeAt (t u : Nat) : MCPBridge := (MCPBridge.new t).initBridge u

/-- The demo bridge with both timestamps at 0. -/
def demoBridge : MCPBridge := demoBridgeAt 0 0

/-- The connection record `demoBridge` holds for `"demo-server"`. -/
def demoConn : Connection :=
  { id := "demo-server", server := demoServer, status := "connected"
    lastPing := 0, messageCount := 0, hasWs := false }

/-- A minimal outbound message with an unrecognized method. -/
def pingMsg : MCPMessage := ⟨"ping", none⟩

/-- The fixed `tools/list` response of `simulateResponse`, spelled out. -/
def toolsListResponse : JValue :=
  .obj [("result", .obj [("tools", .arr
    [.obj [("name", .str "calculate"),
           ("description", .str "Perform mathematical calculations")],
     .obj [("name", .str "weather"),
           ("description", .str "Get current weather information")],
     .obj [("name", .str "translate"),
           ("description", .str "Translate text between languages")]])])]

/-- The names of the tools listed in a `tools/list`-shaped response. -/
def toolNamesOf : JValue → List String
  | .obj [("result", .obj [("tools", .arr ts)])] =>
      ts.filterMap (fun t =>
        match t with
        | .obj (("name", .str n) :: _) => some n
        | _ => none)
  | _ => []

/-- The generic demo placeholder `simulateResponse` returns for any
unrecognized method. -/
def genericResponse : JValue :=
  .obj [("result", .obj [("message", .str "Demo response"),
                         ("status", .str "success")])]

/-- The `tools/call` response of `simulateResponse` for tool name `n`. -/
def toolsCallResponse (n : String) : JValue :=
  .obj [("result", .obj [("content", .arr
    [.obj [("type", .str "text"),
           ("text", .str ("Tool executed successfully: " ++ n))]])])]

example : mapGet demoBridge.connections "demo-server" = some demoConn := by
  decide

example : demoBridge.stats =
    { totalConnections := 3, activeConnections := 3
      messagesProcessed := 0, lastActivity := 0 } := by decide

/-- `Map.get` after `Map.set` of the same key yields the stored value. -/
theorem mapGet_mapSet_self {α : Type} (m : List (String × α)) (k : String)
    (v : α) : mapGet (mapSet m k v) k = some v := by
  induction m with
  | nil => simp [mapSet, mapGet]
  | cons p rest ih =>
    cases hb : p.1 == k with
    | true => simp [mapSet, mapGet, hb]
    | false => simp [mapSet, mapGet, hb, ih]

/-- `sendMessage` never mutates the bridge state: every branch of the
source returns without writing to `this`. -/
theorem sendMessage_snd (s : MCPBridge) (id : String) (m : MCPMessage)
    (now : Nat) : (s.sendMessage id m now).2 = s := by
  unfold MCPBridge.sendMessage
  cases mapGet s.connections id with
  | none => rfl
  | some c =>
    by_cases h1 : c.status ≠ "connected"
    · simp [h1]
    · by_cases h2 : c.server.status = "simulated"
      · simp [h1, h2]
      · by_cases h3 : c.hasWs <;> simp [h1, h2, h3]

/-- On a connected simulated endpoint, `sendMessage` returns exactly
`simulateResponse message`. -/
theorem sendMessage_simulated_fst (s : MCPBridge) (id : String)
    (c : Connection) (m : MCPMessage) (now : Nat)
    (hget : mapGet s.connections id = some c)
    (hconn : c.status = "connected")
    (hsim : c.server.status = "simulated") :
    (s.sendMessage id m now).1
      = Except.ok (SendResult.response (simulateResponse m)) := by
  unfold MCPBridge.sendMessage
  rw [hget]
  simp [hconn, hsim]

/-- C1: for every server id not present in the connection map,
`sendMessage` fails with the unknown-endpoint error, and neither the
stats snapshot returned by `getStats` nor any connection is changed by
the failed call. -/
theorem C1_send_unknown_endpoint (s : MCPBridge) (serverId : String)
    (message : MCPMessage) (now : Nat)
    (h : mapGet s.connections serverId = none) :
    s.sendMessage serverId message now
      = (Except.error (BridgeError.unknownEndpoint serverId), s)
    ∧ (s.sendMessage serverId message now).2.getStats = s.getStats
    ∧ (s.sendMessage serverId message now).2.connections = s.connections := by
  unfold MCPBridge.sendMessage
  rw [h]
  exact ⟨rfl, rfl, rfl⟩

/-- C1 witness: `send("missing-id", "ping", some params)` on a freshly
constructed bridge. -/
theorem C1_send_unknown_endpoint_witness :
    (MCPBridge.new 0).sendMessage "missing-id" ⟨"ping", some ⟨none⟩⟩ 1
      = (Except.error (BridgeError.unknownEndpoint "missing-id"),
         MCPBridge.new 0) :=
  (C1_send_unknown_endpoint (MCPBridge.new 0) "missing-id"
    ⟨"ping", some ⟨none⟩⟩ 1 rfl).1

/-- C2: on any connected simulated endpoint, `send(id, "tools/list", p)`
returns the fixed result listing exactly the three tools `calculate`,
`weather`, `translate`, and a repeated call with the same arguments
(threaded through the post-call state, at any later time) returns the
identical result. -/
theorem C2_tools_list_fixed (s : MCPBridge) (id : String) (c : Connection)
    (p : Option MCPParams) (n1 n2 : Nat)
    (hget : mapGet s.connections id = some c)
    (hconn : c.status = "connected")
    (hsim : c.server.status = "simulated") :
    (s.sendMessage id ⟨"tools/list", p⟩ n1).1
      = Except.ok (SendResult.response toolsListResponse)
    ∧ toolNamesOf toolsListResponse = ["calculate", "weather", "translate"]
    ∧ ((s.sendMessage id ⟨"tools/list", p⟩ n1).2.sendMessage id
         ⟨"tools/list", p⟩ n2).1
      = (s.sendMessage id ⟨"tools/list", p⟩ n1).1 := by
  have h1 := sendMessage_simulated_fst s id c ⟨"tools/list", p⟩ n1 hget hconn hsim
  have h3 := sendMessage_simulated_fst s id c ⟨"tools/list", p⟩ n2 hget hconn hsim
  refine ⟨?_, rfl, ?_⟩
  · rw [h1]; rfl
  · rw [sendMessage_snd, h3, h1]

/-- C2 witness: `demo-server` on the initialized demo bridge. -/
theorem C2_tools_list_fixed_witness :
    (demoBridge.sendMessage "demo-server" ⟨"tools/list", some ⟨none⟩⟩ 1).1
      = Except.ok (SendResult.response toolsListResponse) :=
  (C2_tools_list_fixed demoBridge "demo-server" demoConn (some ⟨none⟩) 1 2
    (by decide) rfl rfl).1

/-- C3 counterexample: on the initialized demo bridge, the `sendMessage`
call to `demo-server` at time 5 succeeds, yet the connection record
afterwards is unchanged — its message counter is still 0 (not 1) and its
`lastPing` is still 0 (not 5). The source only bumps counters in
`handleMessage`, never in `sendMessage`. -/
theorem C3_counterexample :
    (demoBridge.sendMessage "demo-server" pingMsg 5).1
      = Except.ok (SendResult.response genericResponse)
    ∧ mapGet (demoBridge.sendMessage "demo-server" pingMsg 5).2.connections
        "demo-server" = some demoConn :=
  ⟨rfl, rfl⟩

/-- C3 amended: a successful `sendMessage` leaves every connection's
message counter and last-activity timestamp (and the whole bridge state)
unchanged; only the inbound handler `handleMessage` increments the
counter by one, sets the connection's `lastPing` and bumps the global
message/activity stats. -/
theorem C3_amended_counters_only_on_receive (s : MCPBridge) (id : String)
    (m : MCPMessage) (now : Nat) (conn : Connection)
    (hget : mapGet s.connections id = some conn) :
    (s.sendMessage id m now).2 = s
    ∧ mapGet (s.handleMessage id (some m) now).connections id
        = some { conn with messageCount := conn.messageCount + 1
                           lastPing := now }
    ∧ (s.handleMessage id (some m) now).stats.messagesProcessed
        = s.stats.messagesProcessed + 1
    ∧ (s.handleMessage id (some m) now).stats.lastActivity = now := by
  refine ⟨sendMessage_snd s id m now, ?_, ?_, ?_⟩ <;>
    simp [MCPBridge.handleMessage, hget, mapGet_mapSet_self]

/-- C3 amended witness: an inbound frame for `demo-server` at time 5. -/
theorem C3_amended_witness :
    mapGet (demoBridge.handleMessage "demo-server" (some pingMsg) 5).connections
        "demo-server"
      = some { demoConn with messageCount := 1, lastPing := 5 } :=
  (C3_amended_counters_only_on_receive demoBridge "demo-server" pingMsg 5
    demoConn (by decide)).2.1

/-- C4 counterexample: the demo bridge has three registered endpoints,
yet after `close()` `getConnections()` reports none of them (the map is
cleared, nothing is marked `closed`/`disconnected`), and
`getStats().activeConnections` is still 3, not 0. -/
theorem C4_counterexample :
    demoBridge.servers.length = 3
    ∧ (MCPBridge.close demoBridge).getConnections = []
    ∧ ((MCPBridge.close demoBridge).getStats).activeConnections = 3 := by
  decide

/-- C4 amended: after `close()`, `getConnections()` returns the empty
list — `close` removes every connection record instead of marking it
closed or disconnected — and `getStats()` is completely unchanged, so
`activeConnections` keeps its pre-close value rather than becoming 0. -/
theorem C4_amended_close_clears (s : MCPBridge) :
    (MCPBridge.close s).getConnections = []
    ∧ (MCPBridge.close s).getStats = s.getStats :=
  ⟨rfl, rfl⟩

/-- C5 counterexample: on the initialized demo bridge every
per-connection counter is 0 and `messagesProcessed` is 0, but one firing
of the periodic `updateStats` task (with the random draw active)
fabricates `messagesProcessed = 2` while no connection event occurred;
and after `close()` no connection is in `connected` state yet
`activeConnections` is still 3. -/
theorem C5_counterexample :
    demoBridge.stats.messagesProcessed = 0
    ∧ sumMessageCounts demoBridge = 0
    ∧ (demoBridge.updateStats true 2 7).stats.messagesProcessed = 2
    ∧ sumMessageCounts (demoBridge.updateStats true 2 7) = 0
    ∧ connectedCount (MCPBridge.close demoBridge) = 0
    ∧ (MCPBridge.close demoBridge).stats.activeConnections = 3 := by
  decide

/-- C5 amended: on the demo bridge, `initialize` does establish
`activeConnections = connectedCount`, `sendMessage` preserves the whole
state, and `handleDisconnect` of the connected demo endpoint preserves
the active-count invariant; but the periodic `updateStats` task adds
synthetic message counts derived from no connection, and `close` clears
every connection while leaving `activeConnections` at its pre-close
value, so the stats snapshot does drift from the connection set. -/
theorem C5_amended_stats_can_drift (t u v w : Nat) (id : String)
    (m : MCPMessage) :
    (demoBridgeAt t u).stats.activeConnections
        = connectedCount (demoBridgeAt t u)
    ∧ ((demoBridgeAt t u).sendMessage id m v).2 = demoBridgeAt t u
    ∧ ((demoBridgeAt t u).handleDisconnect "demo-server").stats.activeConnections
        = connectedCount ((demoBridgeAt t u).handleDisconnect "demo-server")
    ∧ ((demoBridgeAt t u).updateStats true w v).stats.messagesProcessed
        = (demoBridgeAt t u).stats.messagesProcessed + w % 3
    ∧ sumMessageCounts ((demoBridgeAt t u).updateStats true w v)
        = sumMessageCounts (demoBridgeAt t u)
    ∧ (MCPBridge.close (demoBridgeAt t u)).stats.activeConnections
        = (demoBridgeAt t u).stats.activeConnections
    ∧ connectedCount (MCPBridge.close (demoBridgeAt t u)) = 0 :=
  ⟨rfl, sendMessage_snd _ id m v, rfl, rfl, rfl, rfl, rfl⟩

/-- C6: for every registered endpoint whose connection record exists but
is not in `connected` state, `sendMessage` fails with the not-connected
error — an error distinct from the unknown-endpoint one — and the bridge
state is unchanged by the failed call. -/
theorem C6_send_not_connected (s : MCPBridge) (id : String)
    (conn : Connection) (m : MCPMessage) (now : Nat)
    (hget : mapGet s.connections id = some conn)
    (hst : conn.status ≠ "connected") :
    s.sendMessage id m now = (Except.error (BridgeError.notConnected id), s)
    ∧ BridgeError.notConnected id ≠ BridgeError.unknownEndpoint id := by
  constructor
  · unfold MCPBridge.sendMessage
    rw [hget]
    simp [hst]
  · intro hcontra
    exact BridgeError.noConfusion hcontra

/-- C6 witness: `demo-server` after a disconnect event. -/
theorem C6_send_not_connected_witness :
    (demoBridge.handleDisconnect "demo-server").sendMessage "demo-server"
        pingMsg 2
      = (Except.error (BridgeError.notConnected "demo-server"),
         demoBridge.handleDisconnect "demo-server") :=
  (C6_send_not_connected (demoBridge.handleDisconnect "demo-server")
    "demo-server" { demoConn with status := "disconnected" } pingMsg 2
    (by decide) (by decide)).1

/-- C7: on a connected simulated endpoint, any method outside
`tools/list`, `tools/call`, `resources/list` yields the generic success
placeholder `{message: "Demo response", status: "success"}` (never an
error), and `tools/call` with tool name `n` yields
`{content: [{type: "text", text: "Tool executed successfully: n"}]}`. -/
theorem C7_default_and_tools_call (s : MCPBridge) (id : String)
    (c : Connection) (m : MCPMessage) (now : Nat) (n : String)
    (hget : mapGet s.connections id = some c)
    (hconn : c.status = "connected")
    (hsim : c.server.status = "simulated")
    (h1 : m.method ≠ "tools/list")
    (h2 : m.method ≠ "tools/call")
    (h3 : m.method ≠ "resources/list")
    (hn : n ≠ "") :
    (s.sendMessage id m now).1
      = Except.ok (SendResult.response genericResponse)
    ∧ (s.sendMessage id ⟨"tools/call", some ⟨some n⟩⟩ now).1
      = Except.ok (SendResult.response (toolsCallResponse n)) := by
  constructor
  · rw [sendMessage_simulated_fst s id c m now hget hconn hsim]
    simp [simulateResponse, h1, h2, h3, genericResponse]
  · rw [sendMessage_simulated_fst s id c _ now hget hconn hsim]
    simp [simulateResponse, paramsNameOrUnknown, hn, toolsCallResponse]

/-- C7 witness: method `ping` and a `tools/call` of `calculate` on the
demo bridge. -/
theorem C7_default_and_tools_call_witness :
    (demoBridge.sendMessage "demo-server" pingMsg 1).1
      = Except.ok (SendResult.response genericResponse)
    ∧ (demoBridge.sendMessage "demo-server"
        ⟨"tools/call", some ⟨some "calculate"⟩⟩ 1).1
      = Except.ok (SendResult.response (toolsCallResponse "calculate")) :=
  C7_default_and_tools_call demoBridge "demo-server" demoConn pingMsg 1
    "calculate" (by decide) rfl rfl (by decide) (by decide) (by decide)
    (by decide)

/-- C8 counterexample: on the demo bridge, after one inbound frame the
`demo-server` connection is `connected` with message counter 1; calling
`connectToServer` again on this already-connected endpoint is not a
no-op — it installs a fresh record whose counter is reset to 0. -/
theorem C8_counterexample :
    mapGet (demoBridge.handleMessage "demo-server"
        (some pingMsg) 3).connections "demo-server"
      = some { demoConn with messageCount := 1, lastPing := 3 }
    ∧ mapGet ((demoBridge.handleMessage "demo-server"
        (some pingMsg) 3).connectToServer "demo-server" demoServer
          4).connections "demo-server"
      = some { demoConn with messageCount := 0, lastPing := 4 } := by
  decide

/-- C8 amended: `connectToServer` on a simulated endpoint is not a no-op
when the endpoint is already connected: it unconditionally installs a
fresh connection record with status `connected`, message counter 0 and
last-activity `now`, so a repeated connect implicitly resets the
counter. -/
theorem C8_amended_connect_resets (s : MCPBridge) (id : String)
    (server : Server) (now : Nat) (hsim : server.status = "simulated") :
    mapGet (s.connectToServer id server now).connections id
      = some ⟨id, server, "connected", now, 0, false⟩ := by
  unfold MCPBridge.connectToServer
  rw [if_pos hsim]
  exact mapGet_mapSet_self s.connections id _

/-- C8 amended witness: reconnecting `demo-server` while it is connected
with a nonzero counter. -/
theorem C8_amended_connect_resets_witness :
    mapGet ((demoBridge.handleMessage "demo-server"
        (some pingMsg) 3).connectToServer "demo-server" demoServer
          4).connections "demo-server"
      = some ⟨"demo-server", demoServer, "connected", 4, 0, false⟩ :=
  C8_amended_connect_resets
    (demoBridge.handleMessage "demo-server" (some pingMsg) 3)
    "demo-server" demoServer 4 rfl

/-- C9: for a simulated endpoint the result of `sendMessage` depends only
on the message: any two connected simulated endpoints, in any two bridge
states and at any two times, give identical results for the same message
— the endpoint identity, its capability set and all counters are not
inputs to the response. -/
theorem C9_response_depends_only_on_message (s1 s2 : MCPBridge)
    (id1 id2 : String) (c1 c2 : Connection) (m : MCPMessage) (n1 n2 : Nat)
    (hget1 : mapGet s1.connections id1 = some c1)
    (hconn1 : c1.status = "connected")
    (hsim1 : c1.server.status = "simulated")
    (hget2 : mapGet s2.connections id2 = some c2)
    (hconn2 : c2.status = "connected")
    (hsim2 : c2.server.status = "simulated") :
    (s1.sendMessage id1 m n1).1 = (s2.sendMessage id2 m n2).1 := by
  rw [sendMessage_simulated_fst s1 id1 c1 m n1 hget1 hconn1 hsim1,
      sendMessage_simulated_fst s2 id2 c2 m n2 hget2 hconn2 hsim2]

/-- C9 witness: `demo-server` on the untouched demo bridge versus
`ai-assistant` (different capability set, counter already 1) after an
inbound frame, at different times. -/
theorem C9_response_depends_only_on_message_witness :
    (demoBridge.sendMessage "demo-server" pingMsg 1).1
      = ((demoBridge.handleMessage "ai-assistant"
          (some pingMsg) 9).sendMessage "ai-assistant" pingMsg 2).1 :=
  C9_response_depends_only_on_message demoBridge
    (demoBridge.handleMessage "ai-assistant" (some pingMsg) 9)
    "demo-server" "ai-assistant" demoConn
    ⟨"ai-assistant", aiAssistant, "connected", 9, 1, false⟩ pingMsg 1 2
    (by decide) rfl rfl (by decide) rfl rfl

/-- C10: after `close()`, `sendMessage` fails with the unknown-endpoint
error for every server id — including ids registered and connected before
the close — because `close` removes every entry from the connection map
rather than marking the connections closed. -/
theorem C10_send_after_close (s : MCPBridge) (id : String) (m : MCPMessage)
    (now : Nat) :
    (MCPBridge.close s).connections = []
    ∧ (MCPBridge.close s).sendMessage id m now
      = (Except.error (BridgeError.unknownEndpoint id), MCPBridge.close s) :=
  ⟨rfl, rfl⟩

end DiscordEx
